import Mathlib

/-!
Shallow embedding of the inboundvoting HTTP API (Express + PostgreSQL).

The repository holds two variants of the server:
* `src/unnamed/part_000` — the canonical, constraint-based variant: vote
  deduplication is delegated to the store's UNIQUE constraints, email and
  name are normalized before insertion, and a Google-Sheets webhook is
  notified fire-and-forget after a successful vote.
* `src/server.js` — the historical variant: pre-check query for duplicates,
  no normalization, and a `generateLogoUrl` helper for new companies.

Definitions below are translated from `src/unnamed/part_000` unless the
name says otherwise.  The relational store (PostgreSQL) is modelled by
explicit list-based tables with the schema's uniqueness constraints; a
failing INSERT surfaces as an `Except.error` carrying the PostgreSQL error
code and constraint name, exactly the two fields the route handlers
inspect.
-/

namespace InboundVoting

/-- JSON value as delivered by Express body parsing; only the shapes the
handlers can observe are modelled (numbers as integers suffice for ids). -/
inductive JVal where
  | jnull : JVal
  | jbool : Bool → JVal
  | jnum : Int → JVal
  | jstr : String → JVal
deriving Repr, DecidableEq

/-- JavaScript truthiness of an optional string field (`undefined`, `null`
and `""` are falsy). -/
def truthyStr : Option String → Bool
  | none => false
  | some s => s ≠ ""

/-- JavaScript truthiness of an optional JSON value (`undefined`, `null`,
`false`, `0` and `""` are falsy). -/
def truthyJ : Option JVal → Bool
  | none => false
  | some JVal.jnull => false
  | some (JVal.jbool b) => b
  | some (JVal.jnum n) => n ≠ 0
  | some (JVal.jstr s) => s ≠ ""

/-- PostgreSQL `int4` input conversion applied to the text form of a
bound parameter: surrounding whitespace is skipped, one leading `+` or
`-` sign is allowed, then one or more digits are required; any other
shape raises the invalid-text-representation error the caller turns into
22P02.  (The int4 range check is not modelled; no claim depends on
it.) -/
def pgParseInt (s : String) : Option Int :=
  let cs := ((s.data.dropWhile Char.isWhitespace).reverse.dropWhile
    Char.isWhitespace).reverse
  let p : Bool × List Char :=
    match cs with
    | '-' :: rest => (true, rest)
    | '+' :: rest => (false, rest)
    | _ => (false, cs)
  if !p.2.isEmpty && p.2.all (fun c => c.isDigit) then
    let n : Nat := p.2.foldl (fun acc c => 10 * acc + (c.toNat - 48)) 0
    some (if p.1 then -(n : Int) else (n : Int))
  else
    none

/-- JavaScript `String.prototype.trim()`: surrounding whitespace removed.
Implemented on the character list so that concrete instances reduce in the
kernel (the library's `String.trim` walks byte positions and does not). -/
def jsTrim (s : String) : String :=
  ⟨((s.data.dropWhile Char.isWhitespace).reverse.dropWhile Char.isWhitespace).reverse⟩

/-- JavaScript `String.prototype.toLowerCase()` on the ASCII data this
system handles: each character lower-cased. -/
def jsToLower (s : String) : String :=
  ⟨s.data.map Char.toLower⟩

/-- Semantics of the validation regex `/^[^\s@]+@[^\s@]+\.[^\s@]+$/` from
`src/unnamed/part_000` line 162: one or more characters that are neither
whitespace nor `@`, an `@`, then the same with a mandatory `.` that has a
non-empty run on each side.  Equivalently: no whitespace anywhere, exactly
one `@` which is not the first character, and after the `@` a dot occurs
that is neither the first nor the last character of the domain part. -/
def emailOk (s : String) : Bool :=
  let cs := s.data
  match cs.findIdx? (· = '@') with
  | none => false
  | some i =>
    decide (0 < i) &&
    (cs.drop (i + 1)).all (· ≠ '@') &&
    cs.all (fun c => !c.isWhitespace) &&
    ((cs.drop (i + 2)).dropLast).contains '.'

/-- Row of the `companies` table (`initDB`, part_000 lines 24–34). -/
structure Company where
  id : Int
  name : String
  website : Option String
  logo_url : Option String
  active : Bool
deriving Repr, DecidableEq

/-- Row of the (post-migration) `votes` table (`initDB`, part_000 lines
37–46): voter_email and voter_phone each carry a UNIQUE constraint. -/
structure Vote where
  id : Int
  voter_name : String
  voter_email : String
  voter_phone : String
  company_id : Int
deriving Repr, DecidableEq

/-- State of the relational store as the route handlers see it, with the
sequence counters for the SERIAL primary keys. -/
structure DB where
  companies : List Company
  votes : List Vote
  nextVoteId : Int
  nextCompanyId : Int
deriving Repr, DecidableEq

/-- The two error fields the route handlers inspect on a failed query
(`error.code`, `error.constraint`). -/
structure PgError where
  code : String
  constraint : String
deriving Repr, DecidableEq

/-- Name PostgreSQL gives the implicit UNIQUE constraint of column
`voter_email` in `CREATE TABLE votes_new ...` (part_000 line 41): column
constraints are auto-named `<table>_<column>_key`, and `ALTER TABLE ...
RENAME` keeps constraint names, so the promoted `votes` table still raises
this name. -/
def emailConstraintName : String := "votes_new_voter_email_key"

/-- Auto-generated name of the `voter_phone` UNIQUE constraint (part_000
line 42), analogous to `emailConstraintName`. -/
def phoneConstraintName : String := "votes_new_voter_phone_key"

/-- Auto-generated name of the `name` UNIQUE constraint of `companies`
(part_000 line 27). -/
def companyNameConstraintName : String := "companies_name_key"

/-- Store semantics of `INSERT INTO votes (voter_name, voter_email,
voter_phone, company_id) VALUES ($1,$2,$3,$4) RETURNING id`: the UNIQUE
constraints on voter_email and voter_phone reject a duplicate with error
code 23505 naming the violated constraint; otherwise the row is appended
and its generated id returned. -/
def insertVote (db : DB) (nm em ph : String) (cid : Int) :
    Except PgError (DB × Int) :=
  if db.votes.any (fun v => v.voter_email = em) then
    Except.error ⟨"23505", emailConstraintName⟩
  else if db.votes.any (fun v => v.voter_phone = ph) then
    Except.error ⟨"23505", phoneConstraintName⟩
  else
    Except.ok
      ({ db with
          votes := db.votes ++ [⟨db.nextVoteId, nm, em, ph, cid⟩],
          nextVoteId := db.nextVoteId + 1 },
        db.nextVoteId)

/-- The company lookup `SELECT id, name, website FROM companies WHERE
id = $1 AND active = true` (part_000 lines 172–175) with the pg cast of
the bound `companyVote` parameter: a number compares directly; a string
is read by the `int4` input conversion, and one that does not parse makes
the query itself throw with code 22P02 (caught by the handler's catch); a
boolean is serialized as the text `true`/`false` and likewise fails the
cast; NULL compares equal to no id.  On success the first matching active
row (if any) is returned. -/
def companyQuery (db : DB) (cv : JVal) : Except PgError (Option Company) :=
  match cv with
  | JVal.jnum n => Except.ok (db.companies.find? (fun c => c.active && c.id = n))
  | JVal.jstr s =>
    match pgParseInt s with
    | some n => Except.ok (db.companies.find? (fun c => c.active && c.id = n))
    | none => Except.error ⟨"22P02", ""⟩
  | JVal.jnull => Except.ok none
  | JVal.jbool _ => Except.error ⟨"22P02", ""⟩

/-- Request body of `POST /api/vote` (part_000 line 154); a `none` field
was absent from the JSON body. -/
structure VoteReq where
  voterName : Option String
  voterEmail : Option String
  voterPhone : Option String
  companyVote : Option JVal
deriving Repr, DecidableEq

/-- Payload sent to the Google-Sheets webhook (part_000 lines 192–198). -/
structure SheetsPayload where
  voterName : String
  voterEmail : String
  voterPhone : String
  companyName : String
  companyWebsite : Option String
  voteId : Int
deriving Repr, DecidableEq

/-- Model of `sendToGoogleSheets` (part_000 lines 125–150): every network
outcome — success, non-ok status, thrown error — is consumed inside the
function (logged only), so its result carries no information. -/
def sendToGoogleSheets (_payload : SheetsPayload) (_netOk : Bool) : Unit := ()

/-- Outcome of one request: HTTP status, JSON body fields actually set by
the handlers (`error`, `voteId`), resulting store state, and the webhook
payload dispatched (if any). -/
structure VoteOutcome where
  status : Nat
  errMsg : Option String
  voteId : Option Int
  db : DB
  sheets : Option SheetsPayload
deriving Repr, DecidableEq

/-- Translation of the catch branch of `POST /api/vote` (part_000 lines
208–223): a 23505 is classified by `error.constraint` against the literal
names `unique_email` / `unique_phone`, anything else gives 500. -/
def voteErrorResponse (db : DB) (e : PgError) : VoteOutcome :=
  if e.code = "23505" then
    if e.constraint = "unique_email" then
      ⟨400, some "This email address has already been used to vote", none, db, none⟩
    else if e.constraint = "unique_phone" then
      ⟨400, some "This phone number has already been used to vote", none, db, none⟩
    else
      ⟨400, some "You have already voted", none, db, none⟩
  else
    ⟨500, some "Failed to submit vote", none, db, none⟩

/-- Handler of `POST /api/vote` in the canonical, constraint-based variant
(part_000 lines 153–224).  `netOk` is the eventual outcome of the
fire-and-forget webhook call; it is passed on to `sendToGoogleSheets`,
whose unit result the handler ignores, mirroring the unawaited
`sendToGoogleSheets(...).catch(...)` call. -/
def postVote (db : DB) (req : VoteReq) (netOk : Bool) : VoteOutcome :=
  if truthyStr req.voterName && truthyStr req.voterEmail &&
      truthyStr req.voterPhone && truthyJ req.companyVote then
    match req.voterName, req.voterEmail, req.voterPhone, req.companyVote with
    | some nm, some em, some ph, some cv =>
      if !emailOk em then
        ⟨400, some "Invalid email format", none, db, none⟩
      else
        let cleanEmail := jsTrim (jsToLower em)
        let cleanPhone := jsTrim ph
        match companyQuery db cv with
        | Except.error e => voteErrorResponse db e
        | Except.ok none => ⟨400, some "Invalid company selection", none, db, none⟩
        | Except.ok (some selectedCompany) =>
          match insertVote db (jsTrim nm) cleanEmail cleanPhone selectedCompany.id with
          | Except.ok (db1, voteId) =>
            let payload : SheetsPayload :=
              ⟨jsTrim nm, cleanEmail, cleanPhone, selectedCompany.name,
                selectedCompany.website, voteId⟩
            let _ := sendToGoogleSheets payload netOk
            ⟨201, none, some voteId, db1, some payload⟩
          | Except.error e => voteErrorResponse db e
    | _, _, _, _ =>
      ⟨400, some "All fields are required", none, db, none⟩
  else
    ⟨400, some "All fields are required", none, db, none⟩

/-- Translation of `website?.trim() || null` (part_000 line 280): an absent
website stays NULL, and a website trimming to the empty string (falsy)
also becomes NULL. -/
def websiteParam : Option String → Option String
  | none => none
  | some w => if jsTrim w = "" then none else some (jsTrim w)

/-- Store semantics of `INSERT INTO companies (name, website) VALUES
($1,$2) RETURNING *` (part_000 lines 278–281): the UNIQUE constraint on
`name` rejects a duplicate with code 23505; otherwise the row is appended
with the column defaults `active = true` and `logo_url = NULL` (the insert
names no logo column) and returned. -/
def insertCompany (db : DB) (nm : String) (web : Option String) :
    Except PgError (DB × Company) :=
  if db.companies.any (fun c => c.name = nm) then
    Except.error ⟨"23505", companyNameConstraintName⟩
  else
    let row : Company := ⟨db.nextCompanyId, nm, web, none, true⟩
    Except.ok
      ({ db with
          companies := db.companies ++ [row],
          nextCompanyId := db.nextCompanyId + 1 },
        row)

/-- Outcome of an admin company request: HTTP status, `error` body field,
`company` body field, resulting store state. -/
structure CompanyOutcome where
  status : Nat
  errMsg : Option String
  company : Option Company
  db : DB
deriving Repr, DecidableEq

/-- Handler of `POST /api/admin/companies` in the canonical variant
(part_000 lines 270–295): reject a missing or blank name, insert the
trimmed name with the trimmed-or-null website, map a 23505 to 400
"Company already exists" and any other store failure to 500. -/
def addCompany (db : DB) (nameF websiteF : Option String) : CompanyOutcome :=
  match nameF with
  | none => ⟨400, some "Company name is required", none, db⟩
  | some nm =>
    if nm = "" || jsTrim nm = "" then
      ⟨400, some "Company name is required", none, db⟩
    else
      match insertCompany db (jsTrim nm) (websiteParam websiteF) with
      | Except.ok (db1, row) =>
        ⟨201, some "Company added successfully", some row, db1⟩
      | Except.error e =>
        if e.code = "23505" then
          ⟨400, some "Company already exists", none, db⟩
        else
          ⟨500, some "Failed to add company", none, db⟩

/-- Number of votes referencing company id `cid`: the left-joined
`COUNT(v.id)` of the leaderboard query (part_000 lines 229–244). -/
def voteCount (db : DB) (cid : Int) : Nat :=
  (db.votes.filter (fun v => v.company_id = cid)).length

/-- Denominator of the leaderboard percentage: `SELECT COUNT(*) FROM
votes`, i.e. every vote row, also those referencing inactive companies. -/
def totalVotes (db : DB) : Nat :=
  db.votes.length

/-- Percentage of the leaderboard row of company `cid`, in tenths of a
percent: `ROUND(COUNT(v.id) * 100.0 / NULLIF(total, 0), 1)` with SQL
numeric rounding (half away from zero, here half up since values are
nonnegative), composed with the JS `parseFloat(percentage) || 0` that maps
the NULL arising at `total = 0` to 0.  `(2000 * count + total) / (2 *
total)` in natural division is exactly round-half-up of `1000 * count /
total`. -/
def pctTenths (db : DB) (cid : Int) : Nat :=
  let t := totalVotes db
  if t = 0 then 0 else (2000 * voteCount db cid + t) / (2 * t)

/-- Companies appearing on the public leaderboard: `WHERE c.active =
true` (part_000 line 241). -/
def activeCompanies (db : DB) : List Company :=
  db.companies.filter (fun c => c.active)

/-- Percentages of all leaderboard rows, in tenths of a percent.  The SQL
orders rows by vote count and name; the order permutes this list and is
irrelevant to its sum, the subject of the percentage claims. -/
def leaderboardPcts (db : DB) : List Nat :=
  (activeCompanies db).map (fun c => pctTenths db c.id)

/-! Schema/migration component (`initDB`, part_000 lines 22–72).  The
table catalog is modelled as an association list from table names to vote
tables; only the shape the migration observes is kept per table, namely
whether it is the new constrained table.  The companies table always
exists in the model (its CREATE IF NOT EXISTS is idempotent and never
observed to fail by the migration logic). -/

/-- A votes-holding table as the migration sees it: either the legacy
unconstrained table or the new one with the UNIQUE constraints. -/
structure VTable where
  constrained : Bool
deriving Repr, DecidableEq

/-- Table catalog plus companies table contents and the SERIAL counter of
`companies.id`. -/
structure Catalog where
  tables : List (String × VTable)
  companies : List Company
  nextCompanyId : Int
deriving Repr, DecidableEq

/-- Name lookup in the table catalog. -/
def tlookup : List (String × VTable) → String → Option VTable
  | [], _ => none
  | p :: rest, nm => if p.1 = nm then some p.2 else tlookup rest nm

/-- Removal of a table name from the catalog. -/
def tremove (ts : List (String × VTable)) (nm : String) : List (String × VTable) :=
  ts.filter (fun p => p.1 ≠ nm)

/-- `CREATE TABLE IF NOT EXISTS votes_new (... UNIQUE ... UNIQUE ...)`
(part_000 lines 37–46). -/
def createVotesNewIfAbsent (c : Catalog) : Catalog :=
  if tlookup c.tables "votes_new" = none then
    { c with tables := ("votes_new", ⟨true⟩) :: c.tables }
  else c

/-- `DROP TABLE IF EXISTS <nm>`: never fails. -/
def dropTableIfExists (c : Catalog) (nm : String) : Catalog :=
  { c with tables := tremove c.tables nm }

/-- `ALTER TABLE <src> RENAME TO <dst>`: fails when the source table is
missing or the target name is taken, else renames. -/
def renameTable (c : Catalog) (src dst : String) : Except String Catalog :=
  match tlookup c.tables src with
  | none => Except.error "source table does not exist"
  | some t =>
    if tlookup c.tables dst = none then
      Except.ok { c with tables := (dst, t) :: tremove c.tables src }
    else
      Except.error "target name already exists"

/-- The try/catch rename sequence of `initDB` (part_000 lines 49–57):
drop `votes_old`, rename `votes` aside, promote `votes_new`.  The catch
absorbs a failure of either rename; statements already executed keep
their effect (each query commits on its own, there is no transaction). -/
def migrateVotes (c : Catalog) : Catalog :=
  match renameTable (dropTableIfExists c "votes_old") "votes" "votes_old" with
  | Except.error _ => dropTableIfExists c "votes_old"
  | Except.ok c2 =>
    match renameTable c2 "votes_new" "votes" with
    | Except.error _ => c2
    | Except.ok c3 => c3

/-- Effect of one row of the seeding insert `INSERT INTO companies ... ON
CONFLICT (name) DO NOTHING` (part_000 lines 60–66): insert unless the
name is already present. -/
def seedCompany (cs : List Company) (nid : Int) (nm web logo : String) :
    List Company × Int :=
  if cs.any (fun c => c.name = nm) then (cs, nid)
  else (cs ++ [⟨nid, nm, some web, some logo, true⟩], nid + 1)

/-- The two-row seeding insert of `initDB` (part_000 lines 60–66). -/
def seedDefaults (c : Catalog) : Catalog :=
  let p1 := seedCompany c.companies c.nextCompanyId "Apple"
    "https://apple.com" "https://logo.clearbit.com/apple.com"
  let p2 := seedCompany p1.1 p1.2 "Google"
    "https://google.com" "https://logo.clearbit.com/google.com"
  { c with companies := p2.1, nextCompanyId := p2.2 }

/-- Whole startup schema routine `initDB` (part_000 lines 22–72): create
the constrained `votes_new` if absent, run the absorbed rename sequence,
seed the default companies. -/
def initDB (c : Catalog) : Catalog :=
  seedDefaults (migrateVotes (createVotesNewIfAbsent c))

/-- Number of companies carrying a given name. -/
def countName (cs : List Company) (nm : String) : Nat :=
  (cs.filter (fun c => c.name = nm)).length

/-! Helper lemmas about the vote handler's control flow. -/

/-- The empty string never passes the email regex. -/
lemma emailOk_empty : emailOk "" = false := rfl

/-- A string containing a whitespace character never passes the email
regex: the regex excludes whitespace from every position. -/
lemma emailOk_of_whitespace (s : String) (c : Char) (hc : c ∈ s.data)
    (hw : c.isWhitespace = true) : emailOk s = false := by
  unfold emailOk
  have hall : s.data.all (fun c => !c.isWhitespace) = false := by
    rw [List.all_eq_false]
    exact ⟨c, hc, by simp [hw]⟩
  cases hidx : s.data.findIdx? (· = '@') with
  | none => simp [hidx]
  | some i => simp [hidx, hall]

/-- When a required field is falsy, the handler replies 400 "All fields
are required" at once, for every store state. -/
lemma postVote_missing_fields (db : DB) (req : VoteReq) (o : Bool)
    (h : (truthyStr req.voterName && truthyStr req.voterEmail &&
      truthyStr req.voterPhone && truthyJ req.companyVote) = false) :
    postVote db req o = ⟨400, some "All fields are required", none, db, none⟩ := by
  unfold postVote
  simp [h]

/-- When the fields are present but the email fails the regex, the handler
replies 400 "Invalid email format", for every store state. -/
lemma postVote_invalid_email (db : DB) (nm em ph : String) (cv : JVal) (o : Bool)
    (hnm : nm ≠ "") (hem0 : em ≠ "") (hph : ph ≠ "")
    (hcv : truthyJ (some cv) = true) (hbad : emailOk em = false) :
    postVote db ⟨some nm, some em, some ph, some cv⟩ o =
      ⟨400, some "Invalid email format", none, db, none⟩ := by
  unfold postVote
  simp [truthyStr, hnm, hem0, hph, hcv, hbad]

/-- When validation passes but no active company matches the selected id,
the handler replies 400 "Invalid company selection" and the store is
untouched. -/
lemma postVote_invalid_company (db : DB) (nm em ph : String) (cv : JVal) (o : Bool)
    (hnm : nm ≠ "") (hph : ph ≠ "")
    (hcv : truthyJ (some cv) = true) (hem : emailOk em = true)
    (hq : companyQuery db cv = Except.ok none) :
    postVote db ⟨some nm, some em, some ph, some cv⟩ o =
      ⟨400, some "Invalid company selection", none, db, none⟩ := by
  have hem0 : em ≠ "" := by
    intro h; rw [h] at hem; exact absurd hem (by simp [emailOk_empty])
  unfold postVote
  simp [truthyStr, hnm, hem0, hph, hcv, hem, hq]

/-- When validation passes but the company lookup query itself throws —
a truthy `companyVote` the store cannot cast to an integer — the catch
sees a non-23505 error and replies 500 "Failed to submit vote", with the
store untouched. -/
lemma postVote_cast_error (db : DB) (nm em ph : String) (cv : JVal) (o : Bool)
    (hnm : nm ≠ "") (hph : ph ≠ "")
    (hcv : truthyJ (some cv) = true) (hem : emailOk em = true)
    (hq : companyQuery db cv = Except.error ⟨"22P02", ""⟩) :
    postVote db ⟨some nm, some em, some ph, some cv⟩ o =
      ⟨500, some "Failed to submit vote", none, db, none⟩ := by
  have hem0 : em ≠ "" := by
    intro h; rw [h] at hem; exact absurd hem (by simp [emailOk_empty])
  unfold postVote
  simp [truthyStr, hnm, hem0, hph, hcv, hem, hq, voteErrorResponse]

/-- Full characterisation of a successful submission: the row is appended
with trimmed name, lower-cased trimmed email and trimmed phone, the
generated id is returned with status 201, and the webhook payload carries
the normalized data together with the selected company's name and
website — all independent of the webhook outcome `o`. -/
lemma postVote_success (db : DB) (nm em ph : String) (cv : JVal) (o : Bool)
    (comp : Company)
    (hnm : nm ≠ "") (hph : ph ≠ "")
    (hcv : truthyJ (some cv) = true) (hem : emailOk em = true)
    (hq : companyQuery db cv = Except.ok (some comp))
    (hdupE : db.votes.any (fun v => v.voter_email = jsTrim (jsToLower em)) = false)
    (hdupP : db.votes.any (fun v => v.voter_phone = jsTrim ph) = false) :
    postVote db ⟨some nm, some em, some ph, some cv⟩ o =
      ⟨201, none, some db.nextVoteId,
        { db with
            votes := db.votes ++ [⟨db.nextVoteId, jsTrim nm, jsTrim (jsToLower em), jsTrim ph, comp.id⟩],
            nextVoteId := db.nextVoteId + 1 },
        some ⟨jsTrim nm, jsTrim (jsToLower em), jsTrim ph, comp.name, comp.website, db.nextVoteId⟩⟩ := by
  have hem0 : em ≠ "" := by
    intro h; rw [h] at hem; exact absurd hem (by simp [emailOk_empty])
  unfold postVote
  simp [truthyStr, hnm, hem0, hph, hcv, hem, hq, insertVote, hdupE, hdupP,
    sendToGoogleSheets]

/-- When validation passes, an active company matches, but a stored vote
already carries the normalized email, the insert violates the email
uniqueness constraint and the handler falls into the generic
"You have already voted" branch (the schema's auto-generated constraint
name matches neither `unique_email` nor `unique_phone`). -/
lemma postVote_duplicate_email (db : DB) (nm em ph : String) (cv : JVal) (o : Bool)
    (comp : Company)
    (hnm : nm ≠ "") (hph : ph ≠ "")
    (hcv : truthyJ (some cv) = true) (hem : emailOk em = true)
    (hq : companyQuery db cv = Except.ok (some comp))
    (hdupE : db.votes.any (fun v => v.voter_email = jsTrim (jsToLower em)) = true) :
    postVote db ⟨some nm, some em, some ph, some cv⟩ o =
      ⟨400, some "You have already voted", none, db, none⟩ := by
  have hem0 : em ≠ "" := by
    intro h; rw [h] at hem; exact absurd hem (by simp [emailOk_empty])
  unfold postVote
  simp [truthyStr, hnm, hem0, hph, hcv, hem, hq, insertVote, hdupE,
    voteErrorResponse, emailConstraintName]

/-- The company lookup reads only the companies table, so it is unchanged
by vote insertions. -/
lemma companyQuery_congr (db1 db2 : DB) (cv : JVal)
    (h : db1.companies = db2.companies) :
    companyQuery db1 cv = companyQuery db2 cv := by
  cases cv with
  | jnull => rfl
  | jbool b => rfl
  | jnum n => simp [companyQuery, h]
  | jstr s =>
    cases hps : pgParseInt s <;> simp [companyQuery, hps, h]

/-! Concrete states used by scenario theorems. -/

/-- An active company, id 1. -/
def exCompany : Company := ⟨1, "Acme", some "https://acme.com", none, true⟩

/-- Store with one active company and no votes. -/
def exDB : DB := ⟨[exCompany], [], 1, 2⟩

/-- First scenario submission (spec §8): name "Ana Silva",
email "Ana@X.com", phone "555-0001", company 1. -/
def exReq1 : VoteReq :=
  ⟨some "Ana Silva", some "Ana@X.com", some "555-0001", some (JVal.jnum 1)⟩

/-- Store state after the first scenario submission. -/
def exDB1 : DB := (postVote exDB exReq1 true).db

/-- Second scenario submission: email "ana@x.com " (trailing space),
distinct phone. -/
def exReq2 : VoteReq :=
  ⟨some "Ana Silva", some "ana@x.com ", some "555-0002", some (JVal.jnum 1)⟩

/-- The claim's scenario fails on the code: the first submission succeeds
(201), but the follow-up with email "ana@x.com " is rejected by the email
format validation — which runs on the raw input before normalization and
admits no whitespace — so the response is 400 "Invalid email format", not
a duplicate-email rejection (and even a pure case variant would get the
generic "You have already voted", never the email-naming message). -/
theorem C1_counterexample :
    (postVote exDB exReq1 true).status = 201 ∧
    postVote exDB1 exReq2 true =
      ⟨400, some "Invalid email format", none, exDB1, none⟩ ∧
    (postVote exDB1 exReq2 true).errMsg ≠
      some "This email address has already been used to vote" ∧
    (postVote exDB1 exReq2 true).errMsg ≠ some "You have already voted" := by
  refine ⟨rfl, rfl, by decide, by decide⟩

/-- Amended C1: a second submission whose email passes the format check
and lower-cases/trims to the first's normalized email is rejected 400 with
the generic "You have already voted" body (the handler's constraint-name
checks never match the schema's auto-generated names); an email variant
containing whitespace (in particular surrounding whitespace) is instead
rejected 400 "Invalid email format" before any duplicate detection. -/
theorem C1_second_submission_rejected :
    (∀ (db : DB) (nm1 em1 ph1 nm2 em2 ph2 : String) (cv1 cv2 : JVal)
       (o1 o2 : Bool) (comp1 comp2 : Company),
      nm1 ≠ "" → ph1 ≠ "" → truthyJ (some cv1) = true → emailOk em1 = true →
      companyQuery db cv1 = Except.ok (some comp1) →
      db.votes.any (fun v => v.voter_email = jsTrim (jsToLower em1)) = false →
      db.votes.any (fun v => v.voter_phone = jsTrim ph1) = false →
      nm2 ≠ "" → ph2 ≠ "" → truthyJ (some cv2) = true → emailOk em2 = true →
      jsTrim (jsToLower em2) = jsTrim (jsToLower em1) →
      companyQuery db cv2 = Except.ok (some comp2) →
      (postVote db ⟨some nm1, some em1, some ph1, some cv1⟩ o1).status = 201 ∧
      postVote (postVote db ⟨some nm1, some em1, some ph1, some cv1⟩ o1).db
          ⟨some nm2, some em2, some ph2, some cv2⟩ o2 =
        ⟨400, some "You have already voted", none,
          (postVote db ⟨some nm1, some em1, some ph1, some cv1⟩ o1).db, none⟩) ∧
    (∀ (db : DB) (nm em ph : String) (cv : JVal) (o : Bool) (c : Char),
      nm ≠ "" → em ≠ "" → ph ≠ "" → truthyJ (some cv) = true →
      c ∈ em.data → c.isWhitespace = true →
      postVote db ⟨some nm, some em, some ph, some cv⟩ o =
        ⟨400, some "Invalid email format", none, db, none⟩) := by
  constructor
  · intro db nm1 em1 ph1 nm2 em2 ph2 cv1 cv2 o1 o2 comp1 comp2
    intro hnm1 hph1 hcv1 hem1 hq1 hdupE1 hdupP1 hnm2 hph2 hcv2 hem2 hsame hq2
    have hrun1 := postVote_success db nm1 em1 ph1 cv1 o1 comp1
      hnm1 hph1 hcv1 hem1 hq1 hdupE1 hdupP1
    rw [hrun1]
    refine ⟨rfl, ?_⟩
    apply postVote_duplicate_email _ nm2 em2 ph2 cv2 o2 comp2
      hnm2 hph2 hcv2 hem2
    · exact (companyQuery_congr _ db cv2 rfl).trans hq2
    · simp [hsame]
  · intro db nm em ph cv o c hnm hem0 hph hcv hc hw
    exact postVote_invalid_email db nm em ph cv o hnm hem0 hph hcv
      (emailOk_of_whitespace em c hc hw)

/-- Witness for the amended C1 at the spec's scenario data: first
submission "Ana Silva" / "Ana@X.com" / "555-0001" / company 1 succeeds,
the case variant "ana@X.com" with phone "555-0002" is then rejected with
the generic duplicate body, and the whitespace variant "ana@x.com " is
rejected as badly formatted. -/
theorem C1_second_submission_rejected_witness :
    ((postVote exDB ⟨some "Ana Silva", some "Ana@X.com", some "555-0001",
        some (JVal.jnum 1)⟩ true).status = 201 ∧
      postVote (postVote exDB ⟨some "Ana Silva", some "Ana@X.com",
          some "555-0001", some (JVal.jnum 1)⟩ true).db
        ⟨some "Ana Silva", some "ana@X.com", some "555-0002", some (JVal.jnum 1)⟩ false =
      ⟨400, some "You have already voted", none,
        (postVote exDB ⟨some "Ana Silva", some "Ana@X.com", some "555-0001",
          some (JVal.jnum 1)⟩ true).db, none⟩) ∧
    postVote exDB1 ⟨some "Ana Silva", some "ana@x.com ", some "555-0002",
        some (JVal.jnum 1)⟩ true =
      ⟨400, some "Invalid email format", none, exDB1, none⟩ := by
  constructor
  · exact C1_second_submission_rejected.1 exDB "Ana Silva" "Ana@X.com" "555-0001"
      "Ana Silva" "ana@X.com" "555-0002" (JVal.jnum 1) (JVal.jnum 1) true false
      exCompany exCompany (by decide) (by decide) (by decide) (by decide)
      rfl (by decide) (by decide) (by decide) (by decide) (by decide)
      (by decide) (by decide) rfl
  · exact C1_second_submission_rejected.2 exDB1 "Ana Silva" "ana@x.com "
      "555-0002" (JVal.jnum 1) true ' ' (by decide) (by decide) (by decide)
      (by decide) (by decide) (by decide)

/-- C3: a submission that passes validation stores the voter name trimmed
and the email lower-cased and trimmed (first part), and the value compared
against existing votes by the duplicate detection is that same normalized
email (second part: a stored vote carrying the normalized email makes the
submission fail with a 400). -/
theorem C3_normalized_before_insert :
    (∀ (db : DB) (nm em ph : String) (cv : JVal) (o : Bool) (comp : Company),
      nm ≠ "" → ph ≠ "" → truthyJ (some cv) = true → emailOk em = true →
      companyQuery db cv = Except.ok (some comp) →
      db.votes.any (fun v => v.voter_email = jsTrim (jsToLower em)) = false →
      db.votes.any (fun v => v.voter_phone = jsTrim ph) = false →
      (postVote db ⟨some nm, some em, some ph, some cv⟩ o).db.votes =
        db.votes ++ [⟨db.nextVoteId, jsTrim nm, jsTrim (jsToLower em), jsTrim ph, comp.id⟩]) ∧
    (∀ (db : DB) (nm em ph : String) (cv : JVal) (o : Bool) (comp : Company),
      nm ≠ "" → ph ≠ "" → truthyJ (some cv) = true → emailOk em = true →
      companyQuery db cv = Except.ok (some comp) →
      db.votes.any (fun v => v.voter_email = jsTrim (jsToLower em)) = true →
      (postVote db ⟨some nm, some em, some ph, some cv⟩ o).status = 400) := by
  constructor
  · intro db nm em ph cv o comp hnm hph hcv hem hq hdupE hdupP
    rw [postVote_success db nm em ph cv o comp hnm hph hcv hem hq hdupE hdupP]
  · intro db nm em ph cv o comp hnm hph hcv hem hq hdupE
    rw [postVote_duplicate_email db nm em ph cv o comp hnm hph hcv hem hq hdupE]

/-- Witness for C3 at the scenario submission: the stored row carries
"ana@x.com" (lower-cased, trimmed) and the trimmed name; a duplicate of
that normalized email is then rejected. -/
theorem C3_normalized_before_insert_witness :
    (postVote exDB ⟨some " Ana Silva ", some "Ana@X.com", some "555-0001",
        some (JVal.jnum 1)⟩ true).db.votes =
      [⟨1, "Ana Silva", "ana@x.com", "555-0001", 1⟩] ∧
    (postVote exDB1 ⟨some "Bea", some "ANA@x.com", some "555-0009",
        some (JVal.jnum 1)⟩ true).status = 400 := by
  constructor
  · exact C3_normalized_before_insert.1 exDB " Ana Silva " "Ana@X.com"
      "555-0001" (JVal.jnum 1) true exCompany (by decide) (by decide)
      (by decide) (by decide) rfl (by decide) (by decide)
  · exact C3_normalized_before_insert.2 exDB1 "Bea" "ANA@x.com" "555-0009"
      (JVal.jnum 1) true exCompany (by decide) (by decide) (by decide)
      (by decide) rfl (by decide)

/-- The claim over-reaches on identifiers the store cannot read as an
integer: with an active company 1 present, `companyVote = "abc"` matches
no active company, yet the lookup query itself throws (22P02) and the
catch answers 500 "Failed to submit vote" — not 400 "Invalid company
selection"; and `companyVote = " 1"` — not equal to any id as text —
is cast by PostgreSQL (whitespace-tolerant) to 1 and the vote succeeds
with 201. -/
theorem C4_counterexample :
    postVote exDB ⟨some "Ana Silva", some "ana@x.com", some "555-0001",
        some (JVal.jstr "abc")⟩ true =
      ⟨500, some "Failed to submit vote", none, exDB, none⟩ ∧
    (postVote exDB ⟨some "Ana Silva", some "ana@x.com", some "555-0001",
        some (JVal.jstr "abc")⟩ true).status ≠ 400 ∧
    (postVote exDB ⟨some "Ana Silva", some "ana@x.com", some "555-0001",
        some (JVal.jstr " 1")⟩ true).status = 201 := by
  refine ⟨rfl, by decide, rfl⟩

/-- Amended C4: when the store reads the target company identifier as an
integer id (or NULL) and it matches no company with active = true —
including an existing but deactivated company — the operation responds
400 "Invalid company selection" and the store is unchanged (the lookup
precedes the insert, so no vote row is created); a truthy identifier the
store cannot cast to an integer makes the lookup query itself fail, and
the catch answers 500 "Failed to submit vote", likewise without an
insert. -/
theorem C4_invalid_company_selection :
    (∀ (db : DB) (nm em ph : String) (cv : JVal) (o : Bool),
      nm ≠ "" → ph ≠ "" → truthyJ (some cv) = true → emailOk em = true →
      companyQuery db cv = Except.ok none →
      postVote db ⟨some nm, some em, some ph, some cv⟩ o =
        ⟨400, some "Invalid company selection", none, db, none⟩) ∧
    (∀ (db : DB) (nm em ph : String) (cv : JVal) (o : Bool),
      nm ≠ "" → ph ≠ "" → truthyJ (some cv) = true → emailOk em = true →
      companyQuery db cv = Except.error ⟨"22P02", ""⟩ →
      postVote db ⟨some nm, some em, some ph, some cv⟩ o =
        ⟨500, some "Failed to submit vote", none, db, none⟩) := by
  constructor
  · intro db nm em ph cv o hnm hph hcv hem hq
    exact postVote_invalid_company db nm em ph cv o hnm hph hcv hem hq
  · intro db nm em ph cv o hnm hph hcv hem hq
    exact postVote_cast_error db nm em ph cv o hnm hph hcv hem hq

/-- Store holding only a deactivated company with id 1. -/
def exDeactDB : DB := ⟨[⟨1, "Acme", some "https://acme.com", none, false⟩], [], 1, 2⟩

/-- Witness for the amended C4: voting for the deactivated company id 1
is rejected with "Invalid company selection" and inserts nothing; voting
with the non-castable identifier "abc" is answered 500 and inserts
nothing. -/
theorem C4_invalid_company_selection_witness :
    postVote exDeactDB ⟨some "Ana Silva", some "ana@x.com", some "555-0001",
        some (JVal.jnum 1)⟩ true =
      ⟨400, some "Invalid company selection", none, exDeactDB, none⟩ ∧
    postVote exDeactDB ⟨some "Ana Silva", some "ana@x.com", some "555-0001",
        some (JVal.jstr "abc")⟩ true =
      ⟨500, some "Failed to submit vote", none, exDeactDB, none⟩ :=
  ⟨C4_invalid_company_selection.1 exDeactDB "Ana Silva" "ana@x.com" "555-0001"
      (JVal.jnum 1) true (by decide) (by decide) (by decide) (by decide) rfl,
    C4_invalid_company_selection.2 exDeactDB "Ana Silva" "ana@x.com" "555-0001"
      (JVal.jstr "abc") true (by decide) (by decide) (by decide) (by decide) rfl⟩

/-- C5: a submission with a missing or empty required field is answered
400 "All fields are required" with the same response for every store
state and the store untouched (so before any store access); a submission
whose fields are present but whose email fails the regex is likewise
answered 400 "Invalid email format" independently of the store. -/
theorem C5_validation_first :
    (∀ (db : DB) (req : VoteReq) (o : Bool),
      (truthyStr req.voterName && truthyStr req.voterEmail &&
        truthyStr req.voterPhone && truthyJ req.companyVote) = false →
      postVote db req o = ⟨400, some "All fields are required", none, db, none⟩) ∧
    (∀ (db : DB) (nm em ph : String) (cv : JVal) (o : Bool),
      nm ≠ "" → em ≠ "" → ph ≠ "" → truthyJ (some cv) = true →
      emailOk em = false →
      postVote db ⟨some nm, some em, some ph, some cv⟩ o =
        ⟨400, some "Invalid email format", none, db, none⟩) := by
  constructor
  · intro db req o h
    exact postVote_missing_fields db req o h
  · intro db nm em ph cv o hnm hem0 hph hcv hbad
    exact postVote_invalid_email db nm em ph cv o hnm hem0 hph hcv hbad

/-- Witness for C5: a request missing its phone is answered
"All fields are required", and one with the dot-free email "ana@xcom" is
answered "Invalid email format". -/
theorem C5_validation_first_witness :
    postVote exDB ⟨some "Ana Silva", some "ana@x.com", none,
        some (JVal.jnum 1)⟩ true =
      ⟨400, some "All fields are required", none, exDB, none⟩ ∧
    postVote exDB ⟨some "Ana Silva", some "ana@xcom", some "555-0001",
        some (JVal.jnum 1)⟩ true =
      ⟨400, some "Invalid email format", none, exDB, none⟩ :=
  ⟨C5_validation_first.1 exDB ⟨some "Ana Silva", some "ana@x.com", none,
      some (JVal.jnum 1)⟩ true (by decide),
    C5_validation_first.2 exDB "Ana Silva" "ana@xcom" "555-0001"
      (JVal.jnum 1) true (by decide) (by decide) (by decide) (by decide)
      (by decide)⟩

/-- C10: a falsy `companyVote` — the number 0, the empty string, null or
false — trips the required-fields check, so the reply is the 400
missing-fields error for every store state, before any company lookup;
consequently the store never changes, and a company with id 0 can never
receive a vote even when it exists and is active. -/
theorem C10_falsy_company_vote :
    (∀ (db : DB) (nm em ph : String) (o : Bool) (cv : Option JVal),
      (cv = some (JVal.jnum 0) ∨ cv = some (JVal.jstr "") ∨
        cv = some JVal.jnull ∨ cv = some (JVal.jbool false)) →
      postVote db ⟨some nm, some em, some ph, cv⟩ o =
        ⟨400, some "All fields are required", none, db, none⟩) ∧
    (∀ (db : DB) (nm em ph : String) (o : Bool),
      (postVote db ⟨some nm, some em, some ph, some (JVal.jnum 0)⟩ o).db = db) := by
  constructor
  · intro db nm em ph o cv hcv
    apply postVote_missing_fields
    rcases hcv with h | h | h | h <;> subst h <;> simp [truthyJ]
  · intro db nm em ph o
    have h := postVote_missing_fields db
      ⟨some nm, some em, some ph, some (JVal.jnum 0)⟩ o (by simp [truthyJ])
    rw [h]

/-- Store holding an active company with id 0. -/
def exZeroDB : DB := ⟨[⟨0, "Zed", none, none, true⟩], [], 1, 2⟩

/-- Witness for C10: with an active company of id 0 in the store, a vote
naming company 0 still gets the missing-fields error and nothing is
inserted. -/
theorem C10_falsy_company_vote_witness :
    postVote exZeroDB ⟨some "Ana Silva", some "ana@x.com", some "555-0001",
        some (JVal.jnum 0)⟩ true =
      ⟨400, some "All fields are required", none, exZeroDB, none⟩ ∧
    (postVote exZeroDB ⟨some "Ana Silva", some "ana@x.com", some "555-0001",
        some (JVal.jnum 0)⟩ true).db = exZeroDB :=
  ⟨C10_falsy_company_vote.1 exZeroDB "Ana Silva" "ana@x.com" "555-0001" true
      (some (JVal.jnum 0)) (Or.inl rfl),
    C10_falsy_company_vote.2 exZeroDB "Ana Silva" "ana@x.com" "555-0001" true⟩

/-- C8: the response and stored state of `POST /api/vote` are identical
for every outcome of the webhook call (first part: the handler result is
literally independent of the network outcome `o`, every failure being
swallowed inside `sendToGoogleSheets`); and a successful submission is
answered 201 with the generated vote id while dispatching the payload of
trimmed name, normalized email, phone, company name, company website and
vote id (second part). -/
theorem C8_webhook_fire_and_forget :
    (∀ (db : DB) (req : VoteReq) (o1 o2 : Bool),
      postVote db req o1 = postVote db req o2) ∧
    (∀ (db : DB) (nm em ph : String) (cv : JVal) (o : Bool) (comp : Company),
      nm ≠ "" → ph ≠ "" → truthyJ (some cv) = true → emailOk em = true →
      companyQuery db cv = Except.ok (some comp) →
      db.votes.any (fun v => v.voter_email = jsTrim (jsToLower em)) = false →
      db.votes.any (fun v => v.voter_phone = jsTrim ph) = false →
      postVote db ⟨some nm, some em, some ph, some cv⟩ o =
        ⟨201, none, some db.nextVoteId,
          { db with
              votes := db.votes ++
                [⟨db.nextVoteId, jsTrim nm, jsTrim (jsToLower em), jsTrim ph, comp.id⟩],
              nextVoteId := db.nextVoteId + 1 },
          some ⟨jsTrim nm, jsTrim (jsToLower em), jsTrim ph, comp.name,
            comp.website, db.nextVoteId⟩⟩) := by
  constructor
  · intro db req o1 o2
    rfl
  · intro db nm em ph cv o comp hnm hph hcv hem hq hdupE hdupP
    exact postVote_success db nm em ph cv o comp hnm hph hcv hem hq hdupE hdupP

/-- Witness for C8: the scenario submission gives the same result whether
the webhook succeeds or fails, and that result is the 201 with the
payload of normalized voter data and the company's name and website. -/
theorem C8_webhook_fire_and_forget_witness :
    postVote exDB exReq1 true = postVote exDB exReq1 false ∧
    postVote exDB exReq1 true =
      ⟨201, none, some 1,
        { exDB with
            votes := [⟨1, "Ana Silva", "ana@x.com", "555-0001", 1⟩],
            nextVoteId := 2 },
        some ⟨"Ana Silva", "ana@x.com", "555-0001", "Acme",
          some "https://acme.com", 1⟩⟩ := by
  constructor
  · exact C8_webhook_fire_and_forget.1 exDB exReq1 true false
  · have h := C8_webhook_fire_and_forget.2 exDB "Ana Silva" "Ana@X.com"
      "555-0001" (JVal.jnum 1) true exCompany (by decide) (by decide)
      (by decide) (by decide) rfl (by decide) (by decide)
    rw [show exReq1 = ⟨some "Ana Silva", some "Ana@X.com", some "555-0001",
      some (JVal.jnum 1)⟩ from rfl, h]
    decide

/-- C2 (code bug evidence): the catch branch compares `error.constraint`
with `unique_email` / `unique_phone`, but the schema's column UNIQUE
constraints carry the auto-generated names `votes_new_voter_email_key` /
`votes_new_voter_phone_key`, so a duplicate email or phone always falls
through to the generic "You have already voted" body — the field-naming
branches are dead; resubmitting the stored normalized email "ana@x.com"
with a fresh phone indeed gets the generic body.  Non-23505 store errors
do get the 500. -/
theorem C2_constraint_classification_dead :
    voteErrorResponse exDB1 ⟨"23505", emailConstraintName⟩ =
      ⟨400, some "You have already voted", none, exDB1, none⟩ ∧
    voteErrorResponse exDB1 ⟨"23505", phoneConstraintName⟩ =
      ⟨400, some "You have already voted", none, exDB1, none⟩ ∧
    postVote exDB1 ⟨some "Bea", some "ana@x.com", some "555-0009",
        some (JVal.jnum 1)⟩ true =
      ⟨400, some "You have already voted", none, exDB1, none⟩ ∧
    (voteErrorResponse exDB1 ⟨"53300", ""⟩).status = 500 := by
  refine ⟨by decide, by decide, by decide, by decide⟩

/-- Empty store for the add-company scenario. -/
def exEmptyDB : DB := ⟨[], [], 1, 1⟩

/-- The claim's logo clause fails on the canonical variant: adding
name "Acme", website "acme.com" succeeds with 201, but the created row's
logo_url is NULL — the insert of `POST /api/admin/companies` names only
the name and website columns, so no logo URL is ever derived (that
happens only in the historical `server.js` variant). -/
theorem C7_counterexample :
    addCompany exEmptyDB (some "Acme") (some "acme.com") =
      ⟨201, some "Company added successfully",
        some ⟨1, "Acme", some "acme.com", none, true⟩,
        ⟨[⟨1, "Acme", some "acme.com", none, true⟩], [], 1, 2⟩⟩ := by
  decide

/-- Amended C7: the add-company operation rejects with 400 a missing
name, a name trimming to the empty string, and a trimmed name duplicating
an existing company name; every accepted request is answered 201 with the
created row, which carries the trimmed name, the trimmed-or-null website,
and no logo URL regardless of whether a website was supplied. -/
theorem C7_add_company :
    (∀ (db : DB) (web : Option String),
      addCompany db none web = ⟨400, some "Company name is required", none, db⟩) ∧
    (∀ (db : DB) (nm : String) (web : Option String),
      jsTrim nm = "" →
      addCompany db (some nm) web = ⟨400, some "Company name is required", none, db⟩) ∧
    (∀ (db : DB) (nm : String) (web : Option String),
      jsTrim nm ≠ "" → db.companies.any (fun c => c.name = jsTrim nm) = true →
      addCompany db (some nm) web = ⟨400, some "Company already exists", none, db⟩) ∧
    (∀ (db : DB) (nm : String) (web : Option String),
      jsTrim nm ≠ "" → db.companies.any (fun c => c.name = jsTrim nm) = false →
      addCompany db (some nm) web =
        ⟨201, some "Company added successfully",
          some ⟨db.nextCompanyId, jsTrim nm, websiteParam web, none, true⟩,
          { db with
              companies := db.companies ++
                [⟨db.nextCompanyId, jsTrim nm, websiteParam web, none, true⟩],
              nextCompanyId := db.nextCompanyId + 1 }⟩) := by
  refine ⟨fun db web => rfl, ?_, ?_, ?_⟩
  · intro db nm web h
    unfold addCompany
    simp [h]
  · intro db nm web h hdup
    have hnm : nm ≠ "" := by
      intro he; rw [he] at h; exact h rfl
    unfold addCompany
    simp [hnm, h, insertCompany, hdup]
  · intro db nm web h hdup
    have hnm : nm ≠ "" := by
      intro he; rw [he] at h; exact h rfl
    unfold addCompany
    simp [hnm, h, insertCompany, hdup]

/-- Witness for the amended C7 at the spec's scenario data: a blank name
is rejected, a duplicate of the existing "Acme" is rejected, and "Beta"
with website " beta.com " is created with the trimmed website and a NULL
logo. -/
theorem C7_add_company_witness :
    addCompany exDB (some "  ") (some "x.com") =
      ⟨400, some "Company name is required", none, exDB⟩ ∧
    addCompany exDB (some " Acme ") none =
      ⟨400, some "Company already exists", none, exDB⟩ ∧
    addCompany exEmptyDB (some "Beta") (some " beta.com ") =
      ⟨201, some "Company added successfully",
        some ⟨1, "Beta", some "beta.com", none, true⟩,
        { exEmptyDB with
            companies := [⟨1, "Beta", some "beta.com", none, true⟩],
            nextCompanyId := 2 }⟩ :=
  ⟨C7_add_company.2.1 exDB "  " (some "x.com") (by decide),
    C7_add_company.2.2.1 exDB " Acme " none (by decide) (by decide),
    C7_add_company.2.2.2 exEmptyDB "Beta" (some " beta.com ") (by decide)
      (by decide)⟩

/-! Arithmetic helpers for the leaderboard percentage sums. -/

lemma sumMap_add {α : Type} (l : List α) (f g : α → Nat) :
    (l.map fun x => f x + g x).sum = (l.map f).sum + (l.map g).sum := by
  induction l with
  | nil => rfl
  | cons a l ih => simp only [List.map_cons, List.sum_cons, ih]; omega

lemma sumMap_mul_left {α : Type} (l : List α) (c : Nat) (f : α → Nat) :
    (l.map fun x => c * f x).sum = c * (l.map f).sum := by
  induction l with
  | nil => simp
  | cons a l ih => simp only [List.map_cons, List.sum_cons, ih, Nat.mul_add]

lemma sumMap_mul_right {α : Type} (l : List α) (f : α → Nat) (c : Nat) :
    (l.map fun x => f x * c).sum = (l.map f).sum * c := by
  induction l with
  | nil => simp
  | cons a l ih => simp only [List.map_cons, List.sum_cons, ih, Nat.add_mul]

lemma sumMap_const {α : Type} (l : List α) (c : Nat) :
    (l.map fun _ => c).sum = l.length * c := by
  induction l with
  | nil => simp
  | cons a l ih => simp only [List.map_cons, List.sum_cons, ih, List.length_cons]; ring

lemma sumMap_le {α : Type} (l : List α) (f g : α → Nat)
    (h : ∀ x ∈ l, f x ≤ g x) :
    (l.map f).sum ≤ (l.map g).sum := by
  induction l with
  | nil => exact Nat.le_refl 0
  | cons a l ih =>
    simp only [List.map_cons, List.sum_cons]
    exact Nat.add_le_add (h a (List.mem_cons_self a l))
      (ih fun x hx => h x (List.mem_cons_of_mem a hx))

lemma sumMap_indicator_not_mem (ids : List Int) (k : Int) (h : k ∉ ids) :
    (ids.map fun i => if k = i then (1 : Nat) else 0).sum = 0 := by
  induction ids with
  | nil => rfl
  | cons a l ih =>
    have hka : k ≠ a := fun he => h (he ▸ List.mem_cons_self a l)
    have hkl : k ∉ l := fun hm => h (List.mem_cons_of_mem a hm)
    simp [hka, ih hkl]

lemma sumMap_indicator_nodup (ids : List Int) (k : Int) (hnd : ids.Nodup)
    (hk : k ∈ ids) :
    (ids.map fun i => if k = i then (1 : Nat) else 0).sum = 1 := by
  induction ids with
  | nil => cases hk
  | cons a l ih =>
    rcases List.mem_cons.mp hk with he | hm
    · subst he
      simp [sumMap_indicator_not_mem l k (List.nodup_cons.mp hnd).1]
    · have hka : k ≠ a := by
        intro he; subst he; exact (List.nodup_cons.mp hnd).1 hm
      simp [hka, ih (List.nodup_cons.mp hnd).2 hm]

/-- Partition of the votes by company id: when the ids are distinct and
every vote's company id occurs among them, the per-id counts add up to
the number of votes. -/
lemma sum_filter_counts (ids : List Int) (vs : List Vote) (hnd : ids.Nodup)
    (hall : ∀ v ∈ vs, v.company_id ∈ ids) :
    (ids.map fun i => (vs.filter fun v => v.company_id = i).length).sum = vs.length := by
  induction vs with
  | nil => simp
  | cons v vs ih =>
    have hv := hall v (List.mem_cons_self v vs)
    have hrest : ∀ w ∈ vs, w.company_id ∈ ids :=
      fun w hw => hall w (List.mem_cons_of_mem v hw)
    have hmap : (ids.map fun i => (((v :: vs).filter fun w => w.company_id = i)).length)
        = ids.map fun i =>
            (if v.company_id = i then (1 : Nat) else 0) +
              ((vs.filter fun w => w.company_id = i)).length := by
      apply List.map_congr_left
      intro i _
      by_cases hcase : v.company_id = i
      · simp [List.filter_cons, hcase, Nat.add_comm]
      · simp [List.filter_cons, hcase]
    rw [hmap, sumMap_add, sumMap_indicator_nodup ids v.company_id hnd hv, ih hrest]
    simp [Nat.add_comm]

/-- Store with one active company holding one of the two votes and one
deactivated company holding the other. -/
def exMixedDB : DB :=
  ⟨[⟨1, "A", none, none, true⟩, ⟨2, "B", none, none, false⟩],
    [⟨1, "x", "x@x.com", "1", 1⟩, ⟨2, "y", "y@y.com", "2", 2⟩], 3, 3⟩

/-- The claim fails as stated: with two votes of which one references a
deactivated company, the total is 2 but the only leaderboard row shows
50.0% (500 tenths) — the denominator `SELECT COUNT(*) FROM votes` counts
every vote while the rows cover active companies only, so the percentages
sum to 50, far outside rounding error of 100. -/
theorem C6_counterexample :
    totalVotes exMixedDB = 2 ∧
    leaderboardPcts exMixedDB = [500] ∧
    2 * (leaderboardPcts exMixedDB).sum + (leaderboardPcts exMixedDB).length < 2000 := by
  refine ⟨rfl, rfl, by decide⟩

/-- Amended C6: when the total is positive, company ids are distinct and
every vote references an active company, the leaderboard percentages (in
tenths of a percent) sum to 1000 within half a tenth per row — with n
rows, 2000 − n ≤ 2·sum ≤ 2000 + n; and when the total is zero every
percentage is 0.  (Votes referencing deactivated companies inflate the
denominator while their company is excluded from the rows, which is what
the counterexample exhibits.) -/
theorem C6_percentage_sum :
    (∀ db : DB, totalVotes db ≠ 0 →
      (db.companies.map fun c => c.id).Nodup →
      (∀ v ∈ db.votes, ∃ c ∈ db.companies, c.active = true ∧ c.id = v.company_id) →
      2000 ≤ 2 * (leaderboardPcts db).sum + (leaderboardPcts db).length ∧
      2 * (leaderboardPcts db).sum ≤ 2000 + (leaderboardPcts db).length) ∧
    (∀ db : DB, totalVotes db = 0 → ∀ p ∈ leaderboardPcts db, p = 0) := by
  constructor
  · intro db ht hnd hactive
    have ht0 : 0 < totalVotes db := Nat.pos_of_ne_zero ht
    set t := totalVotes db with htdef
    set ids := (activeCompanies db).map (fun c => c.id) with hids
    have hpcts : leaderboardPcts db = ids.map fun i => pctTenths db i := by
      rw [leaderboardPcts, hids, List.map_map]
      rfl
    have hndids : ids.Nodup := by
      refine List.Nodup.sublist ?_ hnd
      exact (List.filter_sublist _).map _
    have hmem : ∀ v ∈ db.votes, v.company_id ∈ ids := by
      intro v hv
      obtain ⟨c, hc, hca, hcid⟩ := hactive v hv
      have hcact : c ∈ activeCompanies db :=
        List.mem_filter.mpr ⟨hc, by simp [hca]⟩
      exact hcid ▸ List.mem_map.mpr ⟨c, hcact, rfl⟩
    have hcnt : (ids.map fun i => voteCount db i).sum = t := by
      have h := sum_filter_counts ids db.votes hndids hmem
      simpa [voteCount, totalVotes, htdef] using h
    have hpct : ∀ i : Int, pctTenths db i = (2000 * voteCount db i + t) / (2 * t) := by
      intro i
      rw [pctTenths]
      simp only [← htdef]
      rw [if_neg ht]
    set S := (ids.map fun i => pctTenths db i).sum with hS
    set n := ids.length with hn
    have hlen : (leaderboardPcts db).length = n := by
      rw [hpcts, List.length_map]
    -- upper bound
    have hup : S * (2 * t) ≤ 2000 * t + n * t := by
      have hpoint : ∀ i ∈ ids, pctTenths db i * (2 * t) ≤ 2000 * voteCount db i + t := by
        intro i _
        rw [hpct i]
        exact Nat.div_mul_le_self _ _
      calc S * (2 * t) = (ids.map fun i => pctTenths db i * (2 * t)).sum := by
            rw [sumMap_mul_right]
        _ ≤ (ids.map fun i => 2000 * voteCount db i + t).sum := sumMap_le _ _ _ hpoint
        _ = 2000 * t + n * t := by
            rw [sumMap_add, sumMap_mul_left, hcnt, sumMap_const, ← hn]
    -- lower bound
    have hlo : 2000 * t + n * t + n ≤ S * (2 * t) + n * (2 * t) := by
      have hpoint : ∀ i ∈ ids,
          2000 * voteCount db i + t + 1 ≤ pctTenths db i * (2 * t) + 2 * t := by
        intro i _
        rw [hpct i]
        exact Nat.succ_le_of_lt (Nat.lt_div_mul_add (by omega))
      calc 2000 * t + n * t + n
          = (ids.map fun i => 2000 * voteCount db i + t + 1).sum := by
            rw [sumMap_add, sumMap_add, sumMap_mul_left, hcnt, sumMap_const,
              sumMap_const, ← hn]
            omega
        _ ≤ (ids.map fun i => pctTenths db i * (2 * t) + 2 * t).sum :=
            sumMap_le _ _ _ hpoint
        _ = S * (2 * t) + n * (2 * t) := by
            rw [sumMap_add, sumMap_mul_right, sumMap_const, ← hn]
    constructor
    · have h1 : 2000 * t ≤ S * (2 * t) + n * t := by
        have h2 : 2000 * t + n * t + n ≤ (S * (2 * t) + n * t) + n * t := by
          calc 2000 * t + n * t + n ≤ S * (2 * t) + n * (2 * t) := hlo
            _ = (S * (2 * t) + n * t) + n * t := by ring
        omega
      have h3 : 2000 * t ≤ (2 * S + n) * t := by
        calc 2000 * t ≤ S * (2 * t) + n * t := h1
          _ = (2 * S + n) * t := by ring
      have h4 : 2000 ≤ 2 * S + n := Nat.le_of_mul_le_mul_right h3 ht0
      rw [hpcts] at *
      omega
    · have h3 : (2 * S) * t ≤ (2000 + n) * t := by
        calc (2 * S) * t = S * (2 * t) := by ring
          _ ≤ 2000 * t + n * t := hup
          _ = (2000 + n) * t := by ring
      have h4 : 2 * S ≤ 2000 + n := Nat.le_of_mul_le_mul_right h3 ht0
      rw [hpcts] at *
      omega
  · intro db ht p hp
    rw [leaderboardPcts] at hp
    obtain ⟨c, _, hpc⟩ := List.mem_map.mp hp
    rw [← hpc, pctTenths]
    simp [ht]

/-- Witness for the amended C6: after the scenario vote the store has one
active company holding the single vote, so the single percentage is
100.0% and the sum bounds hold with n = 1; the empty store has total 0
and its (absent) percentages are all 0. -/
theorem C6_percentage_sum_witness :
    (2000 ≤ 2 * (leaderboardPcts exDB1).sum + (leaderboardPcts exDB1).length ∧
      2 * (leaderboardPcts exDB1).sum ≤ 2000 + (leaderboardPcts exDB1).length) ∧
    totalVotes exEmptyDB = 0 := by
  constructor
  · exact C6_percentage_sum.1 exDB1 (by decide) (by decide) (by decide)
  · rfl

/-! Catalog lemmas for the startup migration. -/

lemma tlookup_cons (p : String × VTable) (ts : List (String × VTable)) (nm : String) :
    tlookup (p :: ts) nm = if p.1 = nm then some p.2 else tlookup ts nm := rfl

lemma tremove_cons_self (p : String × VTable) (ts : List (String × VTable))
    (rm : String) (h : p.1 = rm) :
    tremove (p :: ts) rm = tremove ts rm := by
  simp [tremove, List.filter_cons, h]

lemma tremove_cons_ne (p : String × VTable) (ts : List (String × VTable))
    (rm : String) (h : p.1 ≠ rm) :
    tremove (p :: ts) rm = p :: tremove ts rm := by
  simp [tremove, List.filter_cons, h]

lemma tlookup_tremove_self (ts : List (String × VTable)) (nm : String) :
    tlookup (tremove ts nm) nm = none := by
  induction ts with
  | nil => rfl
  | cons p ts ih =>
    by_cases h : p.1 = nm
    · rw [tremove_cons_self p ts nm h]
      exact ih
    · rw [tremove_cons_ne p ts nm h, tlookup_cons, if_neg h]
      exact ih

lemma tlookup_tremove_ne (ts : List (String × VTable)) (rm nm : String)
    (h : nm ≠ rm) :
    tlookup (tremove ts rm) nm = tlookup ts nm := by
  induction ts with
  | nil => rfl
  | cons p ts ih =>
    by_cases hp : p.1 = rm
    · have hpn : p.1 ≠ nm := by rw [hp]; exact fun he => h he.symm
      rw [tremove_cons_self p ts rm hp, ih, tlookup_cons, if_neg hpn]
    · rw [tremove_cons_ne p ts rm hp, tlookup_cons, tlookup_cons, ih]

lemma createVotesNew_companies (c : Catalog) :
    (createVotesNewIfAbsent c).companies = c.companies ∧
    (createVotesNewIfAbsent c).nextCompanyId = c.nextCompanyId := by
  unfold createVotesNewIfAbsent
  split <;> exact ⟨rfl, rfl⟩

lemma renameTable_companies (c c2 : Catalog) (src dst : String)
    (h : renameTable c src dst = Except.ok c2) :
    c2.companies = c.companies ∧ c2.nextCompanyId = c.nextCompanyId := by
  unfold renameTable at h
  split at h
  · exact absurd h (by simp)
  · split at h
    · cases h
      exact ⟨rfl, rfl⟩
    · exact absurd h (by simp)

lemma migrateVotes_companies (c : Catalog) :
    (migrateVotes c).companies = c.companies ∧
    (migrateVotes c).nextCompanyId = c.nextCompanyId := by
  unfold migrateVotes
  split
  · exact ⟨rfl, rfl⟩
  next c2 h2 =>
    have h2c := renameTable_companies _ _ _ _ h2
    split
    · exact h2c
    next c3 h3 =>
      have h3c := renameTable_companies _ _ _ _ h3
      exact ⟨h3c.1.trans h2c.1, h3c.2.trans h2c.2⟩

/-- Evaluation of a rename whose source exists and whose target name is
free. -/
lemma renameTable_ok (c : Catalog) (src dst : String) (t : VTable)
    (hsrc : tlookup c.tables src = some t)
    (hdst : tlookup c.tables dst = none) :
    renameTable c src dst =
      Except.ok { c with tables := (dst, t) :: tremove c.tables src } := by
  unfold renameTable
  simp [hsrc, hdst]

lemma seedDefaults_congr (x y : Catalog)
    (h1 : x.companies = y.companies) (h2 : x.nextCompanyId = y.nextCompanyId) :
    (seedDefaults x).companies = (seedDefaults y).companies ∧
    (seedDefaults x).nextCompanyId = (seedDefaults y).nextCompanyId := by
  unfold seedDefaults
  rw [h1, h2]
  exact ⟨rfl, rfl⟩

lemma countName_append (cs ds : List Company) (nm : String) :
    countName (cs ++ ds) nm = countName cs nm + countName ds nm := by
  simp [countName, List.filter_append]

lemma seedCompany_count_self (cs : List Company) (nid : Int) (nm web logo : String)
    (h : countName cs nm ≤ 1) :
    countName (seedCompany cs nid nm web logo).1 nm = 1 := by
  unfold seedCompany
  split
  next hany =>
    show countName cs nm = 1
    rw [List.any_eq_true] at hany
    obtain ⟨c, hc, hcn⟩ := hany
    have hmem : c ∈ cs.filter (fun c => c.name = nm) :=
      List.mem_filter.mpr ⟨hc, hcn⟩
    have hpos : 0 < countName cs nm := by
      rw [countName]
      exact List.length_pos.mpr (List.ne_nil_of_mem hmem)
    omega
  next hany =>
    show countName (cs ++ [⟨nid, nm, some web, some logo, true⟩]) nm = 1
    have h0 : countName cs nm = 0 := by
      rw [countName, List.length_eq_zero, List.filter_eq_nil_iff]
      intro c hc
      simp only [Bool.not_eq_true, List.any_eq_false] at hany
      simpa using hany c hc
    have h1 : countName [(⟨nid, nm, some web, some logo, true⟩ : Company)] nm = 1 := by
      simp [countName]
    rw [countName_append, h0, h1]

lemma seedCompany_count_other (cs : List Company) (nid : Int)
    (nm web logo other : String) (hne : nm ≠ other) :
    countName (seedCompany cs nid nm web logo).1 other = countName cs other := by
  unfold seedCompany
  split
  · rfl
  · show countName (cs ++ [⟨nid, nm, some web, some logo, true⟩]) other = countName cs other
    have h1 : countName [(⟨nid, nm, some web, some logo, true⟩ : Company)] other = 0 := by
      simp [countName, hne]
    rw [countName_append, h1]
    omega

lemma seedDefaults_counts (c : Catalog)
    (hA : countName c.companies "Apple" ≤ 1)
    (hG : countName c.companies "Google" ≤ 1) :
    countName (seedDefaults c).companies "Apple" = 1 ∧
    countName (seedDefaults c).companies "Google" = 1 := by
  unfold seedDefaults
  constructor
  · rw [seedCompany_count_other _ _ _ _ _ _ (by decide)]
    exact seedCompany_count_self _ _ _ _ _ hA
  · apply seedCompany_count_self
    rw [seedCompany_count_other _ _ _ _ _ _ (by decide)]
    exact hG

lemma initDB_counts (c : Catalog)
    (hA : countName c.companies "Apple" ≤ 1)
    (hG : countName c.companies "Google" ≤ 1) :
    countName (initDB c).companies "Apple" = 1 ∧
    countName (initDB c).companies "Google" = 1 := by
  have hm := migrateVotes_companies (createVotesNewIfAbsent c)
  have hc := createVotesNew_companies c
  unfold initDB
  exact seedDefaults_counts _ (by rw [hm.1, hc.1]; exact hA)
    (by rw [hm.1, hc.1]; exact hG)

/-- Lookups after the migration when a legacy table sits under the
canonical name and no `votes_new` exists yet: both renames succeed, the
legacy table ends up as `votes_old` and the constrained table as
`votes`. -/
lemma migrate_lookups (c : Catalog) (legacy : VTable)
    (hv : tlookup c.tables "votes" = some legacy)
    (hnew : tlookup c.tables "votes_new" = none) :
    tlookup (migrateVotes (createVotesNewIfAbsent c)).tables "votes" =
      some (⟨true⟩ : VTable) ∧
    tlookup (migrateVotes (createVotesNewIfAbsent c)).tables "votes_old" =
      some legacy := by
  have hcre : (createVotesNewIfAbsent c).tables = ("votes_new", ⟨true⟩) :: c.tables := by
    unfold createVotesNewIfAbsent
    rw [if_pos hnew]
  have hc1t : (dropTableIfExists (createVotesNewIfAbsent c) "votes_old").tables =
      tremove (("votes_new", ⟨true⟩) :: c.tables) "votes_old" := by
    show tremove (createVotesNewIfAbsent c).tables "votes_old" = _
    rw [hcre]
  have h1 : tlookup (dropTableIfExists (createVotesNewIfAbsent c) "votes_old").tables
      "votes" = some legacy := by
    rw [hc1t, tlookup_tremove_ne _ _ _ (by decide), tlookup_cons,
      if_neg (by decide)]
    exact hv
  have h2 : tlookup (dropTableIfExists (createVotesNewIfAbsent c) "votes_old").tables
      "votes_old" = none := by
    rw [hc1t]
    exact tlookup_tremove_self _ _
  have hr1 := renameTable_ok _ "votes" "votes_old" legacy h1 h2
  -- lookups in the intermediate catalog produced by the first rename
  have h3 : tlookup (("votes_old", legacy) ::
      tremove (dropTableIfExists (createVotesNewIfAbsent c) "votes_old").tables
        "votes") "votes_new" = some ⟨true⟩ := by
    rw [tlookup_cons, if_neg (by simp), tlookup_tremove_ne _ _ _ (by decide),
      hc1t, tlookup_tremove_ne _ _ _ (by decide), tlookup_cons]
    simp
  have h4 : tlookup (("votes_old", legacy) ::
      tremove (dropTableIfExists (createVotesNewIfAbsent c) "votes_old").tables
        "votes") "votes" = none := by
    rw [tlookup_cons, if_neg (by simp)]
    exact tlookup_tremove_self _ _
  have hr2 := renameTable_ok
    (Catalog.mk
      (("votes_old", legacy) ::
        tremove (dropTableIfExists (createVotesNewIfAbsent c) "votes_old").tables
          "votes")
      (dropTableIfExists (createVotesNewIfAbsent c) "votes_old").companies
      (dropTableIfExists (createVotesNewIfAbsent c) "votes_old").nextCompanyId)
    "votes_new" "votes" ⟨true⟩ h3 h4
  constructor
  · unfold migrateVotes
    rw [hr1]
    show tlookup (match (renameTable (Catalog.mk _ _ _) "votes_new" "votes" :
        Except String Catalog) with
      | Except.error _ => _
      | Except.ok c3 => c3).tables "votes" = some ⟨true⟩
    rw [hr2]
    rw [tlookup_cons]
    simp
  · unfold migrateVotes
    rw [hr1]
    show tlookup (match (renameTable (Catalog.mk _ _ _) "votes_new" "votes" :
        Except String Catalog) with
      | Except.error _ => _
      | Except.ok c3 => c3).tables "votes_old" = some legacy
    rw [hr2]
    rw [tlookup_cons, if_neg (by simp), tlookup_tremove_ne _ _ _ (by decide),
      tlookup_cons]
    simp

lemma initDB_iterate_counts (c : Catalog) (m : Nat)
    (hA : countName c.companies "Apple" ≤ 1)
    (hG : countName c.companies "Google" ≤ 1) :
    countName (initDB^[m + 1] c).companies "Apple" = 1 ∧
    countName (initDB^[m + 1] c).companies "Google" = 1 := by
  induction m generalizing c with
  | zero => simpa using initDB_counts c hA hG
  | succ m ih =>
    rw [Function.iterate_succ_apply]
    have h1 := initDB_counts c hA hG
    exact ih (initDB c) (by omega) (by omega)

/-- C9: when a legacy table sits under the canonical `votes` name (and
the constrained `votes_new` does not exist yet), startup renames the
legacy table to `votes_old` and promotes the freshly created constrained
table to `votes` (first part); whatever the rename sequence does — in
particular when it fails and is absorbed by the catch — startup continues
into seeding, which only ever sees the untouched companies table (second
part); and the ON CONFLICT DO NOTHING seeding is idempotent: any positive
number of startups leaves exactly one company per default name, given the
name-uniqueness the companies schema enforces (third part). -/
theorem C9_migration_and_seeding :
    (∀ (c : Catalog) (legacy : VTable),
      tlookup c.tables "votes" = some legacy →
      tlookup c.tables "votes_new" = none →
      tlookup (initDB c).tables "votes" = some ⟨true⟩ ∧
      tlookup (initDB c).tables "votes_old" = some legacy) ∧
    (∀ c : Catalog,
      (initDB c).companies = (seedDefaults c).companies ∧
      (initDB c).nextCompanyId = (seedDefaults c).nextCompanyId) ∧
    (∀ (c : Catalog) (n : Nat), 1 ≤ n →
      countName c.companies "Apple" ≤ 1 →
      countName c.companies "Google" ≤ 1 →
      countName (initDB^[n] c).companies "Apple" = 1 ∧
      countName (initDB^[n] c).companies "Google" = 1) := by
  refine ⟨?_, ?_, ?_⟩
  · intro c legacy hv hnew
    have h := migrate_lookups c legacy hv hnew
    exact ⟨h.1, h.2⟩
  · intro c
    have hm := migrateVotes_companies (createVotesNewIfAbsent c)
    have hc := createVotesNew_companies c
    exact seedDefaults_congr _ _ (hm.1.trans hc.1) (hm.2.trans hc.2)
  · intro c n hn hA hG
    obtain ⟨m, rfl⟩ : ∃ m, n = m + 1 := ⟨n - 1, by omega⟩
    exact initDB_iterate_counts c m hA hG

/-- A catalog holding just a legacy unconstrained votes table under the
canonical name, with no companies yet. -/
def exCatalog : Catalog := ⟨[("votes", ⟨false⟩)], [], 1⟩

/-- Witness for C9: on the catalog with a legacy `votes` table,
startup leaves the constrained table under `votes`, the legacy table
under `votes_old`, seeds exactly the default companies, and one startup
leaves exactly one Apple and one Google row. -/
theorem C9_migration_and_seeding_witness :
    (tlookup (initDB exCatalog).tables "votes" = some ⟨true⟩ ∧
      tlookup (initDB exCatalog).tables "votes_old" = some ⟨false⟩) ∧
    ((initDB exCatalog).companies = (seedDefaults exCatalog).companies ∧
      (initDB exCatalog).nextCompanyId = (seedDefaults exCatalog).nextCompanyId) ∧
    (countName (initDB^[1] exCatalog).companies "Apple" = 1 ∧
      countName (initDB^[1] exCatalog).companies "Google" = 1) :=
  ⟨C9_migration_and_seeding.1 exCatalog ⟨false⟩ (by decide) (by decide),
    C9_migration_and_seeding.2.1 exCatalog,
    C9_migration_and_seeding.2.2 exCatalog 1 (by decide) (by decide) (by decide)⟩

end InboundVoting
